import Mathlib

/-!
Verification of the chat-interface state logic of the repository.

The repository contains two top-level variants of the same page:
- a mock variant (`src/pages/Index.tsx`) whose response resolver is the pure
  function `generateMockResponse` and whose document ingestion is simulated, and
- a remote variant (an unnamed file) that calls HTTP endpoints for chat,
  status, document list and upload.

Both variants keep their state in a Redux slice; each reducer becomes a pure
function `ChatState → ChatState` here.  Network and timer effects are modelled
by passing the settled outcome of each asynchronous call as an explicit
`Except` argument, and JavaScript `try`/`catch`/`finally` control flow is
modelled by a combinator on state transformers that may throw.
-/

namespace Spec2Proof

/-- Character-list version of JavaScript `String.prototype.startsWith`. -/
def charsStartWith : List Char → List Char → Bool
  | [], _ => true
  | _ :: _, [] => false
  | p :: ps, c :: cs => p == c && charsStartWith ps cs

/-- Does the second list contain the first as a contiguous run? -/
def charsContain (pat : List Char) : List Char → Bool
  | [] => pat.isEmpty
  | c :: cs => charsStartWith pat (c :: cs) || charsContain pat cs

/-- JavaScript `s.includes(pat)`: substring containment. -/
def jsIncludes (s pat : String) : Bool := charsContain pat.toList s.toList

/-- JavaScript `s.toLowerCase()` restricted to the ASCII range used here. -/
def jsToLower (s : String) : String := ⟨s.toList.map Char.toLower⟩

/-- JavaScript `s.trim()`: strip whitespace from both ends. -/
def jsTrim (s : String) : String :=
  ⟨((s.toList.dropWhile Char.isWhitespace).reverse.dropWhile Char.isWhitespace).reverse⟩

/-- Message role, `"user" | "assistant"` in the source. -/
inductive Role where
  | user
  | assistant
deriving DecidableEq, Repr

/-- Document status, `"indexed" | "pending"` in the source. -/
inductive DocStatus where
  | indexed
  | pending
deriving DecidableEq, Repr

/-- The `Document` interface, shared by both variants. -/
structure Document where
  id : String
  name : String
  status : DocStatus
deriving DecidableEq, Repr

namespace Mock

/-- `Source` of the mock variant: `{title, reference}`. -/
structure Source where
  title : String
  reference : String
deriving DecidableEq, Repr

/-- The `Message` interface; `sources?: Source[]` is an optional field. -/
structure Message where
  id : String
  role : Role
  content : String
  sources : Option (List Source)
  timestamp : Nat
deriving DecidableEq, Repr

/-- `ChatState` of the mock variant. -/
structure ChatState where
  messages : List Message
  isProcessing : Bool
  documents : List Document
  isIndexing : Bool
deriving DecidableEq, Repr

/-- The static seed `MOCK_DOCUMENTS`. -/
def MOCK_DOCUMENTS : List Document :=
  [ { id := "1", name := "Q3 Financial Report", status := DocStatus.indexed },
    { id := "2", name := "Customer Service Manual", status := DocStatus.indexed },
    { id := "3", name := "Product Specifications", status := DocStatus.indexed },
    { id := "4", name := "CEO Transcript 2024", status := DocStatus.indexed },
    { id := "5", name := "Market Analysis Report", status := DocStatus.indexed } ]

/-- The slice's `initialState`. -/
def initialState : ChatState :=
  { messages := [], isProcessing := false, documents := MOCK_DOCUMENTS, isIndexing := false }

/-- Reducer `addMessage`: pushes the payload onto `messages`. -/
def addMessage (m : Message) (s : ChatState) : ChatState :=
  { s with messages := s.messages ++ [m] }

/-- Reducer `setIsProcessing`. -/
def setIsProcessing (b : Bool) (s : ChatState) : ChatState :=
  { s with isProcessing := b }

/-- Reducer `setIsIndexing`. -/
def setIsIndexing (b : Bool) (s : ChatState) : ChatState :=
  { s with isIndexing := b }

/-- Reducer `simulateIndexing`: maps every document's status to `indexed`. -/
def simulateIndexing (s : ChatState) : ChatState :=
  { s with documents := s.documents.map (fun d => { d with status := DocStatus.indexed }) }

/-- Result type of the mock resolver: `{content, sources}`. -/
structure MockResponse where
  content : String
  sources : List Source
deriving DecidableEq, Repr

/-- Canned reply of the financial branch of `generateMockResponse`. -/
def financialResponse : MockResponse :=
  { content := "Based on our Q3 Financial Report, revenue increased by 23% year-over-year, reaching $4.2M in total revenue. The growth was primarily driven by our enterprise segment, which saw a 35% increase. Our customer acquisition cost decreased by 15%, while customer lifetime value increased by 20%."
  , sources :=
      [ { title := "Q3 Financial Report", reference := "Page 12, Section 3.2" },
        { title := "Market Analysis Report", reference := "Page 8" } ] }

/-- Canned reply of the support branch of `generateMockResponse`. -/
def supportResponse : MockResponse :=
  { content := "Our customer support team is available 24/7 through multiple channels. You can reach us via email at support@company.com, phone at 1-800-SUPPORT, or through our live chat. According to our service manual, average response time is under 2 hours for email inquiries and immediate for live chat."
  , sources :=
      [ { title := "Customer Service Manual", reference := "Chapter 2, Contact Information" },
        { title := "Product Specifications", reference := "Support Section" } ] }

/-- Canned reply of the product branch of `generateMockResponse`. -/
def productResponse : MockResponse :=
  { content := "Our product suite includes three main offerings: Enterprise Platform (with advanced analytics and API access), Professional Plan (with team collaboration features), and Starter Plan (ideal for small teams). Each plan includes 99.9% uptime guarantee, real-time data synchronization, and dedicated support."
  , sources :=
      [ { title := "Product Specifications", reference := "Overview, Pages 1-5" },
        { title := "CEO Transcript 2024", reference := "Product Roadmap Discussion" } ] }

/-- Fallback reply of `generateMockResponse` when no keyword group matches. -/
def fallbackResponse : MockResponse :=
  { content := "I can only provide information based on the indexed documents. Please ask questions related to our Q3 financial performance, customer support procedures, or product specifications. Feel free to rephrase your question to match the available document corpus."
  , sources := [] }

/-- First `if` condition of `generateMockResponse`: the financial keyword group. -/
def financialMatch (lowerQuery : String) : Bool :=
  jsIncludes lowerQuery "revenue" || jsIncludes lowerQuery "q3" || jsIncludes lowerQuery "financial"

/-- Second `if` condition: the support keyword group. -/
def supportMatch (lowerQuery : String) : Bool :=
  jsIncludes lowerQuery "contact" || jsIncludes lowerQuery "support" || jsIncludes lowerQuery "customer"

/-- Third `if` condition: the product keyword group. -/
def productMatch (lowerQuery : String) : Bool :=
  jsIncludes lowerQuery "product" || jsIncludes lowerQuery "feature" || jsIncludes lowerQuery "specification"

/-- `generateMockResponse`: lower-case the query, try the three keyword groups
in order, fall back to the canned refusal. -/
def generateMockResponse (query : String) : MockResponse :=
  let lowerQuery := jsToLower query
  if financialMatch lowerQuery then financialResponse
  else if supportMatch lowerQuery then supportResponse
  else if productMatch lowerQuery then productResponse
  else fallbackResponse

/-- The user `Message` built by `handleSendMessage`; `Date.now()` is `now`. -/
def userMessage (now : Nat) (input : String) : Message :=
  { id := toString now, role := Role.user, content := jsTrim input
  , sources := none, timestamp := now }

/-- The assistant `Message` built in the `setTimeout` callback. -/
def aiMessage (now : Nat) (r : MockResponse) : Message :=
  { id := toString (now + 1), role := Role.assistant, content := r.content
  , sources := some r.sources, timestamp := now }

/-- `handleSendMessage` of the mock variant, run to completion: the guard
`!input.trim() || isProcessing` short-circuits, otherwise the user message is
appended, `isProcessing` is raised, and the delayed callback appends the mock
reply and lowers `isProcessing`. -/
def handleSendMessage (now : Nat) (input : String) (s : ChatState) : ChatState :=
  if jsTrim input == "" || s.isProcessing then s
  else
    let userMsg := userMessage now input
    let s1 := setIsProcessing true (addMessage userMsg s)
    let r := generateMockResponse userMsg.content
    setIsProcessing false (addMessage (aiMessage now r) s1)

/-- Delay of the simulated indexing `setTimeout`, in milliseconds. -/
def indexingDelayMs : Nat := 2000

/-- Delay of the simulated chat response `setTimeout`, in milliseconds. -/
def responseDelayMs : Nat := 2000

/-- `handleIndexDocuments`, run to completion: raise `isIndexing`, then after
the delay map every document to `indexed` and lower `isIndexing`. -/
def handleIndexDocuments (s : ChatState) : ChatState :=
  setIsIndexing false (simulateIndexing (setIsIndexing true s))

/-- Number of user/assistant messages with the given role. -/
def countRole (r : Role) (ms : List Message) : Nat :=
  (ms.filter (fun m => m.role == r)).length

/-- Derived count rendered by the panel:
`documents.filter((d) => d.status === "indexed").length`. -/
def indexedCount (s : ChatState) : Nat :=
  (s.documents.filter (fun d => d.status == DocStatus.indexed)).length

/-- The four dispatchable actions of the mock variant's slice. -/
inductive Action where
  | addMessage (m : Message)
  | setIsProcessing (b : Bool)
  | setIsIndexing (b : Bool)
  | simulateIndexing
deriving Repr

/-- Dispatch: the reducer applied by each action. -/
def applyAction : Action → ChatState → ChatState
  | Action.addMessage m, s => addMessage m s
  | Action.setIsProcessing b, s => setIsProcessing b s
  | Action.setIsIndexing b, s => setIsIndexing b s
  | Action.simulateIndexing, s => simulateIndexing s

/-- States of the mock variant's store reachable from `initialState` by
dispatching slice actions. -/
inductive Reachable : ChatState → Prop where
  | init : Reachable initialState
  | step {s : ChatState} (a : Action) : Reachable s → Reachable (applyAction a s)

end Mock

namespace Remote

/-- `Source` of the remote variant: `{title, uri}`. -/
structure Source where
  title : String
  uri : String
deriving DecidableEq, Repr

/-- The `Message` interface of the remote variant. -/
structure Message where
  id : String
  role : Role
  content : String
  sources : Option (List Source)
  timestamp : Nat
deriving DecidableEq, Repr

/-- `ChatState` of the remote variant, with the extra `indexedCount` field. -/
structure ChatState where
  messages : List Message
  isProcessing : Bool
  documents : List Document
  isIndexing : Bool
  indexedCount : Nat
deriving DecidableEq, Repr

/-- The slice's `initialState`: everything empty, nothing indexed. -/
def initialState : ChatState :=
  { messages := [], isProcessing := false, documents := []
  , isIndexing := false, indexedCount := 0 }

/-- Reducer `addMessage`. -/
def addMessage (m : Message) (s : ChatState) : ChatState :=
  { s with messages := s.messages ++ [m] }

/-- Reducer `setMessages`: wholesale replacement of the thread. -/
def setMessages (ms : List Message) (s : ChatState) : ChatState :=
  { s with messages := ms }

/-- Reducer `setIsProcessing`. -/
def setIsProcessing (b : Bool) (s : ChatState) : ChatState :=
  { s with isProcessing := b }

/-- Reducer `setDocuments`: wholesale replacement of the document list by the
fetched payload. -/
def setDocuments (docs : List Document) (s : ChatState) : ChatState :=
  { s with documents := docs }

/-- Reducer `setIsIndexing`. -/
def setIsIndexing (b : Bool) (s : ChatState) : ChatState :=
  { s with isIndexing := b }

/-- Reducer `setIndexedCount`. -/
def setIndexedCount (n : Nat) (s : ChatState) : ChatState :=
  { s with indexedCount := n }

/-- Decoded body of `POST /api/v1/chat`: `{response_text, sources}`. -/
structure ChatResponse where
  response_text : String
  sources : List Source
deriving DecidableEq, Repr

/-- The user `Message` built by `handleSendMessage`. -/
def userMessage (now : Nat) (input : String) : Message :=
  { id := toString now, role := Role.user, content := jsTrim input
  , sources := none, timestamp := now }

/-- The assistant `Message` built from a successful chat response. -/
def aiMessage (now : Nat) (r : ChatResponse) : Message :=
  { id := toString (now + 1), role := Role.assistant, content := r.response_text
  , sources := some r.sources, timestamp := now }

/-- The fallback assistant `Message` built in the `catch` block; it carries no
`sources` field. -/
def errorMessage (now : Nat) : Message :=
  { id := toString (now + 1), role := Role.assistant
  , content := "Sorry, I\x27m having trouble connecting to the server. Please try again later."
  , sources := none, timestamp := now }

/-- JavaScript `try`/`catch`/`finally` over state transformers that return the
state reached so far together with a flag saying whether they threw: the
handler runs only when the body threw, the finaliser runs on every path, and
an exception escaping the handler still escapes after the finaliser. -/
def tryCatchFinally (body handler : ChatState → ChatState × Bool)
    (finaliser : ChatState → ChatState) (s : ChatState) : ChatState × Bool :=
  let r1 := body s
  if r1.2 then
    let r2 := handler r1.1
    (finaliser r2.1, r2.2)
  else
    (finaliser r1.1, false)

/-- The `try`/`catch`/`finally` tail of `handleSendMessage`: `res` is the
settled outcome of `postChatMessage`, and `aiThrows`/`errThrows` model a
hypothetical exception from the corresponding `dispatch(addMessage(...))`. -/
def submitSettle (now : Nat) (res : Except Unit ChatResponse)
    (aiThrows errThrows : Bool) (s : ChatState) : ChatState × Bool :=
  tryCatchFinally
    (fun st =>
      match res with
      | Except.error _ => (st, true)
      | Except.ok r => if aiThrows then (st, true) else (addMessage (aiMessage now r) st, false))
    (fun st => if errThrows then (st, true) else (addMessage (errorMessage now) st, false))
    (setIsProcessing false) s

/-- The synchronous head of `handleSendMessage`: guard, append the user
message, raise `isProcessing`. -/
def submitStart (now : Nat) (input : String) (s : ChatState) : ChatState :=
  if jsTrim input == "" || s.isProcessing then s
  else setIsProcessing true (addMessage (userMessage now input) s)

/-- `handleSendMessage` of the remote variant, run to completion. -/
def handleSendMessage (now : Nat) (input : String) (res : Except Unit ChatResponse)
    (aiThrows errThrows : Bool) (s : ChatState) : ChatState × Bool :=
  if jsTrim input == "" || s.isProcessing then (s, false)
  else submitSettle now res aiThrows errThrows
    (setIsProcessing true (addMessage (userMessage now input) s))

/-- `fetchStatusAndDocuments`, with the settled outcomes of `getStatus` and
`getDocuments` passed explicitly: on success of the first read the count is
stored, on success of the second the document list is stored, and any failure
is caught by the surrounding `try`/`catch` and only logged. -/
def fetchStatusAndDocuments (statusRes : Except Unit Nat)
    (docsRes : Except Unit (List Document)) (s : ChatState) : ChatState :=
  match statusRes with
  | Except.error _ => s
  | Except.ok n =>
    let s1 := setIndexedCount n s
    match docsRes with
    | Except.error _ => s1
    | Except.ok docs => setDocuments docs s1

/-- `handleFileUpload`: no-op without a selected file; otherwise raise
`isIndexing`, attempt the upload, refresh on success, swallow upload failure
in the `catch`, and lower `isIndexing` in the `finally`. -/
def handleFileUpload (hasFile : Bool) (uploadRes : Except Unit Unit)
    (statusRes : Except Unit Nat) (docsRes : Except Unit (List Document))
    (s : ChatState) : ChatState :=
  if !hasFile then s
  else
    let s1 := setIsIndexing true s
    match uploadRes with
    | Except.error _ => setIsIndexing false s1
    | Except.ok _ => setIsIndexing false (fetchStatusAndDocuments statusRes docsRes s1)

/-- Number of messages with the given role. -/
def countRole (r : Role) (ms : List Message) : Nat :=
  (ms.filter (fun m => m.role == r)).length

/-- Polling interval of the status refresh, in milliseconds. -/
def pollIntervalMs : Nat := 180000

end Remote

/-! ## Helper lemmas -/

theorem Mock.countRole_push_same (r : Role) (ms : List Mock.Message) (m : Mock.Message)
    (h : m.role = r) : Mock.countRole r (ms ++ [m]) = Mock.countRole r ms + 1 := by
  simp [Mock.countRole, List.filter_append, List.filter, h]

theorem Mock.countRole_push_other (r : Role) (ms : List Mock.Message) (m : Mock.Message)
    (h : m.role ≠ r) : Mock.countRole r (ms ++ [m]) = Mock.countRole r ms := by
  simp [Mock.countRole, List.filter_append, List.filter, beq_eq_false_iff_ne.mpr h]

theorem Remote.countRole_append_same (r : Role) (ms : List Remote.Message) (m : Remote.Message)
    (h : m.role = r) : Remote.countRole r (ms ++ [m]) = Remote.countRole r ms + 1 := by
  simp [Remote.countRole, List.filter_append, List.filter, h]

theorem Remote.countRole_append_other (r : Role) (ms : List Remote.Message) (m : Remote.Message)
    (h : m.role ≠ r) : Remote.countRole r (ms ++ [m]) = Remote.countRole r ms := by
  simp [Remote.countRole, List.filter_append, List.filter, beq_eq_false_iff_ne.mpr h]

theorem Mock.handleSendMessage_messages (now : Nat) (input : String) (s : Mock.ChatState)
    (hin : (jsTrim input == "") = false) (hs : s.isProcessing = false) :
    (Mock.handleSendMessage now input s).messages
      = (s.messages ++ [Mock.userMessage now input])
          ++ [Mock.aiMessage now (Mock.generateMockResponse (jsTrim input))] := by
  simp [Mock.handleSendMessage, hin, hs, Mock.addMessage, Mock.setIsProcessing, Mock.userMessage]

theorem Remote.submitSettle_messages_ok (now : Nat) (r : Remote.ChatResponse)
    (s : Remote.ChatState) :
    ((Remote.submitSettle now (Except.ok r) false false s).1).messages
      = s.messages ++ [Remote.aiMessage now r] := by
  simp [Remote.submitSettle, Remote.tryCatchFinally, Remote.addMessage, Remote.setIsProcessing]

theorem Remote.submitSettle_messages_error (now : Nat) (u : Unit) (s : Remote.ChatState) :
    ((Remote.submitSettle now (Except.error u) false false s).1).messages
      = s.messages ++ [Remote.errorMessage now] := by
  simp [Remote.submitSettle, Remote.tryCatchFinally, Remote.addMessage, Remote.setIsProcessing]

/-! ## Claim theorems -/

/-- Claim C3: the local resolver `generateMockResponse` is a deterministic pure
function — equal queries give equal results — and when several keyword groups
match, the result follows the fixed priority financial > support > product >
fallback; in particular any query whose lowercasing contains "revenue" resolves
to the financial branch, whatever else it contains. -/
theorem claim3_mock_resolver_deterministic_priority :
    (∀ q1 q2 : String, q1 = q2 →
      Mock.generateMockResponse q1 = Mock.generateMockResponse q2)
    ∧ (∀ q : String, Mock.financialMatch (jsToLower q) = true →
      Mock.generateMockResponse q = Mock.financialResponse)
    ∧ (∀ q : String, Mock.financialMatch (jsToLower q) = false →
      Mock.supportMatch (jsToLower q) = true →
      Mock.generateMockResponse q = Mock.supportResponse)
    ∧ (∀ q : String, Mock.financialMatch (jsToLower q) = false →
      Mock.supportMatch (jsToLower q) = false →
      Mock.productMatch (jsToLower q) = true →
      Mock.generateMockResponse q = Mock.productResponse)
    ∧ (∀ q : String, Mock.financialMatch (jsToLower q) = false →
      Mock.supportMatch (jsToLower q) = false →
      Mock.productMatch (jsToLower q) = false →
      Mock.generateMockResponse q = Mock.fallbackResponse)
    ∧ (∀ q : String, jsIncludes (jsToLower q) "revenue" = true →
      Mock.generateMockResponse q = Mock.financialResponse) := by
  refine ⟨fun q1 q2 h => by rw [h], ?_, ?_, ?_, ?_, ?_⟩
  · intro q h1
    simp [Mock.generateMockResponse, h1]
  · intro q h1 h2
    simp [Mock.generateMockResponse, h1, h2]
  · intro q h1 h2 h3
    simp [Mock.generateMockResponse, h1, h2, h3]
  · intro q h1 h2 h3
    simp [Mock.generateMockResponse, h1, h2, h3]
  · intro q h
    have h1 : Mock.financialMatch (jsToLower q) = true := by
      simp [Mock.financialMatch, h]
    simp [Mock.generateMockResponse, h1]

/-- Witness for C3 at the query the spec singles out: it contains both
"revenue" and "support" and resolves to the financial branch. -/
theorem claim3_witness :
    jsIncludes (jsToLower "Does revenue affect support?") "revenue" = true
    ∧ jsIncludes (jsToLower "Does revenue affect support?") "support" = true
    ∧ Mock.generateMockResponse "Does revenue affect support?" = Mock.financialResponse :=
  ⟨by decide, by decide,
    claim3_mock_resolver_deterministic_priority.2.2.2.2.2 "Does revenue affect support?" (by decide)⟩

/-- Claim C4: a call to `handleSendMessage` whose input trims to the empty
string, or made while `isProcessing` is true, returns the store unchanged in
both variants — no message is appended and no flag or field moves. -/
theorem claim4_empty_or_busy_submit_is_noop
    (now : Nat) (input : String) (res : Except Unit Remote.ChatResponse)
    (aiThrows errThrows : Bool) (s : Mock.ChatState) (t : Remote.ChatState)
    (hs : (jsTrim input == "") = true ∨ s.isProcessing = true)
    (ht : (jsTrim input == "") = true ∨ t.isProcessing = true) :
    Mock.handleSendMessage now input s = s
    ∧ Remote.handleSendMessage now input res aiThrows errThrows t = (t, false) := by
  constructor
  · rcases hs with h | h <;> simp [Mock.handleSendMessage, h]
  · rcases ht with h | h <;> simp [Remote.handleSendMessage, h]

/-- Witness for C4: the whitespace-only input `"   "` trims to empty and the
call mutates nothing in either variant. -/
theorem claim4_witness :
    (jsTrim "   " == "") = true
    ∧ (Mock.handleSendMessage 7 "   " Mock.initialState = Mock.initialState
      ∧ Remote.handleSendMessage 7 "   " (Except.ok { response_text := "ok", sources := [] })
          false false Remote.initialState = (Remote.initialState, false)) :=
  ⟨by decide,
    claim4_empty_or_busy_submit_is_noop 7 "   " (Except.ok { response_text := "ok", sources := [] })
      false false Mock.initialState Remote.initialState (Or.inl (by decide)) (Or.inl (by decide))⟩

/-- Claim C5: in the remote variant, when the chat request fails the settled
submission appends exactly the fixed connectivity-error assistant message —
content is the fixed apology string, no sources — and `isProcessing` is false
afterwards, with no exception escaping. -/
theorem claim5_failed_remote_resolution_yields_error_turn
    (now : Nat) (t : Remote.ChatState) :
    ((Remote.submitSettle now (Except.error ()) false false t).1).messages
      = t.messages ++ [Remote.errorMessage now]
    ∧ (Remote.errorMessage now).role = Role.assistant
    ∧ (Remote.errorMessage now).content =
      "Sorry, I\x27m having trouble connecting to the server. Please try again later."
    ∧ (Remote.errorMessage now).sources = none
    ∧ ((Remote.errorMessage now).sources.getD []) = []
    ∧ ((Remote.submitSettle now (Except.error ()) false false t).1).isProcessing = false
    ∧ (Remote.submitSettle now (Except.error ()) false false t).2 = false := by
  refine ⟨Remote.submitSettle_messages_error now () t, rfl, rfl, rfl, rfl, ?_, ?_⟩
  · simp [Remote.submitSettle, Remote.tryCatchFinally, Remote.addMessage, Remote.setIsProcessing]
  · simp [Remote.submitSettle, Remote.tryCatchFinally, Remote.addMessage, Remote.setIsProcessing]

/-- Claim C8: the simulated ingest `handleIndexDocuments` raises `isIndexing`,
waits the fixed 2000 ms delay, maps every document's status to `indexed`, and
lowers `isIndexing`; messages and `isProcessing` are untouched. -/
theorem claim8_mock_ingest_sequence (s : Mock.ChatState) :
    Mock.handleIndexDocuments s
      = Mock.setIsIndexing false (Mock.simulateIndexing (Mock.setIsIndexing true s))
    ∧ (Mock.setIsIndexing true s).isIndexing = true
    ∧ (Mock.setIsIndexing true s).documents = s.documents
    ∧ (Mock.setIsIndexing true s).messages = s.messages
    ∧ (Mock.handleIndexDocuments s).documents
      = s.documents.map (fun d => { d with status := DocStatus.indexed })
    ∧ (Mock.handleIndexDocuments s).isIndexing = false
    ∧ (Mock.handleIndexDocuments s).messages = s.messages
    ∧ (Mock.handleIndexDocuments s).isProcessing = s.isProcessing
    ∧ Mock.indexingDelayMs = 2000 := by
  refine ⟨rfl, rfl, rfl, rfl, ?_, rfl, ?_, ?_, rfl⟩ <;>
    simp [Mock.handleIndexDocuments, Mock.setIsIndexing, Mock.simulateIndexing]

/-- Claim C9: on the query "What was the Q3 revenue?" the local resolver
returns content mentioning "23%" and "$4.2M", with exactly two sources, the
first titled "Q3 Financial Report". -/
theorem claim9_q3_revenue_example :
    jsIncludes (Mock.generateMockResponse "What was the Q3 revenue?").content "23%" = true
    ∧ jsIncludes (Mock.generateMockResponse "What was the Q3 revenue?").content "$4.2M" = true
    ∧ (Mock.generateMockResponse "What was the Q3 revenue?").sources.length = 2
    ∧ ((Mock.generateMockResponse "What was the Q3 revenue?").sources.head?.map Mock.Source.title)
      = some "Q3 Financial Report" := by
  refine ⟨by decide, by decide, by decide, by decide⟩

/-- Claim C1: for a query that is non-empty after trimming, submitted while not
already processing, `handleSendMessage` appends exactly one user message
immediately and exactly one assistant message once the resolution settles —
in the mock variant, and in the remote variant for both a successful and a
failed resolution. -/
theorem claim1_submit_appends_one_user_one_assistant
    (now : Nat) (input : String) (res : Except Unit Remote.ChatResponse)
    (s : Mock.ChatState) (t : Remote.ChatState)
    (hin : (jsTrim input == "") = false)
    (hs : s.isProcessing = false) (ht : t.isProcessing = false) :
    (Mock.countRole Role.user (Mock.handleSendMessage now input s).messages
        = Mock.countRole Role.user s.messages + 1
      ∧ Mock.countRole Role.assistant (Mock.handleSendMessage now input s).messages
        = Mock.countRole Role.assistant s.messages + 1)
    ∧ (Remote.countRole Role.user (Remote.submitStart now input t).messages
        = Remote.countRole Role.user t.messages + 1
      ∧ Remote.countRole Role.assistant (Remote.submitStart now input t).messages
        = Remote.countRole Role.assistant t.messages)
    ∧ (Remote.countRole Role.user
          ((Remote.handleSendMessage now input res false false t).1).messages
        = Remote.countRole Role.user t.messages + 1
      ∧ Remote.countRole Role.assistant
          ((Remote.handleSendMessage now input res false false t).1).messages
        = Remote.countRole Role.assistant t.messages + 1) := by
  have hmock := Mock.handleSendMessage_messages now input s hin hs
  have hstart : (Remote.submitStart now input t).messages
      = t.messages ++ [Remote.userMessage now input] := by
    simp [Remote.submitStart, hin, ht, Remote.addMessage, Remote.setIsProcessing]
  refine ⟨⟨?_, ?_⟩, ⟨?_, ?_⟩, ?_⟩
  · rw [hmock, Mock.countRole_push_other, Mock.countRole_push_same] <;>
      simp [Mock.userMessage, Mock.aiMessage]
  · rw [hmock, Mock.countRole_push_same, Mock.countRole_push_other] <;>
      simp [Mock.userMessage, Mock.aiMessage]
  · rw [hstart, Remote.countRole_append_same]
    simp [Remote.userMessage]
  · rw [hstart, Remote.countRole_append_other]
    simp [Remote.userMessage]
  · have hfull : ((Remote.handleSendMessage now input res false false t).1).messages
        = (t.messages ++ [Remote.userMessage now input])
            ++ [match res with
                | Except.ok r => Remote.aiMessage now r
                | Except.error _ => Remote.errorMessage now] := by
      cases res with
      | ok r =>
        simp [Remote.handleSendMessage, hin, ht, Remote.submitSettle, Remote.tryCatchFinally,
          Remote.addMessage, Remote.setIsProcessing]
      | error u =>
        simp [Remote.handleSendMessage, hin, ht, Remote.submitSettle, Remote.tryCatchFinally,
          Remote.addMessage, Remote.setIsProcessing]
    constructor
    · rw [hfull, Remote.countRole_append_other, Remote.countRole_append_same] <;>
        cases res <;> simp [Remote.userMessage, Remote.aiMessage, Remote.errorMessage]
    · rw [hfull, Remote.countRole_append_same, Remote.countRole_append_other] <;>
        cases res <;> simp [Remote.userMessage, Remote.aiMessage, Remote.errorMessage]

/-- Witness for C1 at a concrete non-empty query from a fresh store. -/
theorem claim1_witness :
    (jsTrim "What was the Q3 revenue?" == "") = false
    ∧ Mock.countRole Role.user
        (Mock.handleSendMessage 0 "What was the Q3 revenue?" Mock.initialState).messages
      = Mock.countRole Role.user Mock.initialState.messages + 1 :=
  ⟨by decide,
    (claim1_submit_appends_one_user_one_assistant 0 "What was the Q3 revenue?"
      (Except.error ()) Mock.initialState Remote.initialState
      (by decide) rfl rfl).1.1⟩

/-- Claim C2: the cleanup step that lowers `isProcessing` runs on every
outcome of a settled submission — success, resolver failure, or an exception
raised while appending the assistant or the error message — so `isProcessing`
is false after the remote `try`/`catch`/`finally` tail on all paths, and the
mock variant's callback likewise always lowers it. -/
theorem claim2_cleanup_always_clears_isProcessing :
    (∀ (now : Nat) (res : Except Unit Remote.ChatResponse) (aiThrows errThrows : Bool)
      (t : Remote.ChatState),
      ((Remote.submitSettle now res aiThrows errThrows t).1).isProcessing = false)
    ∧ (∀ (now : Nat) (input : String) (s : Mock.ChatState),
      s.isProcessing = false →
      (Mock.handleSendMessage now input s).isProcessing = false) := by
  constructor
  · intro now res aiThrows errThrows t
    cases res <;> cases aiThrows <;> cases errThrows <;>
      simp [Remote.submitSettle, Remote.tryCatchFinally, Remote.addMessage,
        Remote.setIsProcessing]
  · intro now input s hs
    by_cases h : (jsTrim input == "" || s.isProcessing) = true
    · simpa [Mock.handleSendMessage, h] using hs
    · simp [Mock.handleSendMessage, h, Mock.setIsProcessing]

/-- Witness for C2: a failed resolution with a throwing error-append still
ends with `isProcessing` false, and so does a fresh mock submission. -/
theorem claim2_witness :
    ((Remote.submitSettle 0 (Except.error ()) false true Remote.initialState).1).isProcessing
      = false
    ∧ (Mock.initialState.isProcessing = false
      ∧ (Mock.handleSendMessage 0 "hello" Mock.initialState).isProcessing = false) :=
  ⟨claim2_cleanup_always_clears_isProcessing.1 0 (Except.error ()) false true Remote.initialState,
    rfl, claim2_cleanup_always_clears_isProcessing.2 0 "hello" Mock.initialState rfl⟩

/-- Claim C6 counterexample: a failing `fetchStatusAndDocuments` does not end
with `isIndexing` false — the refresh never touches that flag, so run from a
store state reached while an upload is in flight (`isIndexing` raised) it
leaves the flag raised, contradicting the claim that every failing execution
of the refresh ends with `isIndexing` false. -/
theorem claim6_counterexample_refresh_keeps_isIndexing_raised :
    (Remote.setIsIndexing true Remote.initialState).isIndexing = true
    ∧ (Remote.fetchStatusAndDocuments (Except.error ()) (Except.error ())
        (Remote.setIsIndexing true Remote.initialState)).isIndexing = true :=
  ⟨rfl, rfl⟩

/-- Claim C6 (amended): failures of the upload or of either network read are
caught and swallowed; `handleFileUpload` always ends with `isIndexing` false,
`fetchStatusAndDocuments` leaves `isIndexing` (and the message log) unchanged,
and whenever a read or the upload fails the documents list keeps its last
known value. -/
theorem claim6_amended_failures_swallowed
    (statusRes : Except Unit Nat) (docsRes : Except Unit (List Document))
    (uploadRes : Except Unit Unit) (t : Remote.ChatState) :
    (Remote.fetchStatusAndDocuments statusRes docsRes t).isIndexing = t.isIndexing
    ∧ (Remote.fetchStatusAndDocuments statusRes docsRes t).messages = t.messages
    ∧ (statusRes = Except.error () →
        Remote.fetchStatusAndDocuments statusRes docsRes t = t)
    ∧ (docsRes = Except.error () →
        (Remote.fetchStatusAndDocuments statusRes docsRes t).documents = t.documents)
    ∧ (Remote.handleFileUpload true uploadRes statusRes docsRes t).isIndexing = false
    ∧ (uploadRes = Except.error () →
        (Remote.handleFileUpload true uploadRes statusRes docsRes t).documents = t.documents)
    ∧ (docsRes = Except.error () →
        (Remote.handleFileUpload true uploadRes statusRes docsRes t).documents = t.documents) := by
  refine ⟨?_, ?_, ?_, ?_, ?_, ?_, ?_⟩
  · cases statusRes <;> cases docsRes <;>
      simp [Remote.fetchStatusAndDocuments, Remote.setIndexedCount, Remote.setDocuments]
  · cases statusRes <;> cases docsRes <;>
      simp [Remote.fetchStatusAndDocuments, Remote.setIndexedCount, Remote.setDocuments]
  · intro h
    subst h
    rfl
  · intro h
    subst h
    cases statusRes <;>
      simp [Remote.fetchStatusAndDocuments, Remote.setIndexedCount]
  · cases uploadRes <;>
      simp [Remote.handleFileUpload, Remote.setIsIndexing]
  · intro h
    subst h
    simp [Remote.handleFileUpload, Remote.setIsIndexing]
  · intro h
    subst h
    cases uploadRes <;> cases statusRes <;>
      simp [Remote.handleFileUpload, Remote.setIsIndexing, Remote.fetchStatusAndDocuments,
        Remote.setIndexedCount]

/-- Witness for the amended C6: an upload whose document-list read fails
leaves the (empty) document list of a fresh store untouched. -/
theorem claim6_amended_witness :
    ((Except.error () : Except Unit (List Document)) = Except.error ())
    ∧ (Remote.handleFileUpload true (Except.ok ()) (Except.ok 3) (Except.error ())
        Remote.initialState).documents = Remote.initialState.documents :=
  ⟨rfl, (claim6_amended_failures_swallowed (Except.ok 3) (Except.error ()) (Except.ok ())
    Remote.initialState).2.2.2.2.2.2 rfl⟩

/-- Claim C7 counterexample: `setDocuments` replaces the document list with
the fetched payload unconditionally, so a document held as `indexed` in a
reachable remote-variant state can revert to `pending` under a later
`setDocuments` — the status is not monotonic across the store operations. -/
theorem claim7_counterexample_setDocuments_reverts_status :
    ((Remote.setDocuments [{ id := "1", name := "Report", status := DocStatus.indexed }]
        Remote.initialState).documents.head?.map Document.status = some DocStatus.indexed)
    ∧ ((Remote.setDocuments [{ id := "1", name := "Report", status := DocStatus.pending }]
        (Remote.setDocuments [{ id := "1", name := "Report", status := DocStatus.indexed }]
          Remote.initialState)).documents.head?.map Document.status = some DocStatus.pending) :=
  ⟨rfl, rfl⟩

/-- Claim C7 (amended): in the mock variant the status is monotonic — under
every slice action an `indexed` document stays `indexed` with its identity
intact, since the only documents-mutating action, `simulateIndexing`, maps
every status to `indexed`; the remote variant's `setDocuments` gives no such
guarantee. -/
theorem claim7_amended_mock_status_monotonic
    (a : Mock.Action) (s : Mock.ChatState) (i : Nat) (d : Document)
    (hget : s.documents.get? i = some d) (hst : d.status = DocStatus.indexed) :
    ∃ e : Document, (Mock.applyAction a s).documents.get? i = some e
      ∧ e.status = DocStatus.indexed ∧ e.id = d.id ∧ e.name = d.name := by
  cases a with
  | addMessage m =>
    exact ⟨d, by simpa [Mock.applyAction, Mock.addMessage] using hget, hst, rfl, rfl⟩
  | setIsProcessing b =>
    exact ⟨d, by simpa [Mock.applyAction, Mock.setIsProcessing] using hget, hst, rfl, rfl⟩
  | setIsIndexing b =>
    exact ⟨d, by simpa [Mock.applyAction, Mock.setIsIndexing] using hget, hst, rfl, rfl⟩
  | simulateIndexing =>
    refine ⟨{ d with status := DocStatus.indexed }, ?_, rfl, rfl, rfl⟩
    simp only [Mock.applyAction, Mock.simulateIndexing]
    rw [List.get?_eq_getElem?, List.getElem?_map, ← List.get?_eq_getElem?, hget]
    rfl

/-- Witness for the amended C7 at the first seeded document under
`simulateIndexing`. -/
theorem claim7_amended_witness :
    (Mock.initialState.documents.get? 0
      = some { id := "1", name := "Q3 Financial Report", status := DocStatus.indexed })
    ∧ ∃ e : Document,
        (Mock.applyAction Mock.Action.simulateIndexing Mock.initialState).documents.get? 0
          = some e
        ∧ e.status = DocStatus.indexed ∧ e.id = "1" ∧ e.name = "Q3 Financial Report" :=
  ⟨rfl, claim7_amended_mock_status_monotonic Mock.Action.simulateIndexing Mock.initialState 0
    { id := "1", name := "Q3 Financial Report", status := DocStatus.indexed } rfl rfl⟩

/-- Claim C10: in the mock variant every reachable store state has all
documents `indexed` — the seed is fully indexed and the only
documents-mutating action maps every status to `indexed` — so the derived
`indexedCount` always equals the document count. -/
theorem claim10_mock_documents_always_indexed
    (s : Mock.ChatState) (h : Mock.Reachable s) :
    (∀ d ∈ s.documents, d.status = DocStatus.indexed)
    ∧ Mock.indexedCount s = s.documents.length := by
  have hall : ∀ d ∈ s.documents, d.status = DocStatus.indexed := by
    induction h with
    | init => decide
    | step a hr ih =>
      cases a with
      | addMessage m => simpa [Mock.applyAction, Mock.addMessage] using ih
      | setIsProcessing b => simpa [Mock.applyAction, Mock.setIsProcessing] using ih
      | setIsIndexing b => simpa [Mock.applyAction, Mock.setIsIndexing] using ih
      | simulateIndexing =>
        intro d hd
        simp [Mock.applyAction, Mock.simulateIndexing] at hd
        obtain ⟨d0, hd0, rfl⟩ := hd
        rfl
  refine ⟨hall, ?_⟩
  have hfe : s.documents.filter (fun d => d.status == DocStatus.indexed) = s.documents := by
    apply List.filter_eq_self.mpr
    intro d hd
    simp [hall d hd]
  simp [Mock.indexedCount, hfe]

/-- Witness for C10 at the initial (seeded) state. -/
theorem claim10_witness :
    (∀ d ∈ Mock.initialState.documents, d.status = DocStatus.indexed)
    ∧ Mock.indexedCount Mock.initialState = Mock.initialState.documents.length :=
  claim10_mock_documents_always_indexed Mock.initialState Mock.Reachable.init

end Spec2Proof

